import Mathlib

/-!
Shallow embedding of `src/Grover/GroverQLearner.ipynb` (class `GroverQLearner`),
a hybrid quantum-classical Q-learning agent.

Modelling conventions:
* Python floats are modelled as real numbers (`ℝ`); Python ints as `ℤ`/`ℕ`.
* `int(x)` on a float truncates toward zero: `pytrunc`.
* The Python `round` on a float rounds half to even: `pyround`.
* numpy 2-D tables (`Q_values`, `grover_lengths`, `max_grover_length_reached`)
  are modelled as functions `ℕ → ℕ → _` with pointwise update (`upd2`);
  `np.max(row)` over the `action_dimension` entries of a row is `rowMax`.
* Quantum circuits are modelled syntactically: a `Circuit` is a qubit count, a
  name and a list of gates; a Grover operator is the instruction built from the
  binary label of its target action basis state.
* The environment (external, spec section 6) is a deterministic interface:
  `reset` gives the initial observation and `step` maps (current observation,
  action) to the `(new_state, reward, done)` slots the source destructures from
  `env.step`.  The backend (external) maps an executed circuit and shot count
  to the single measured bit-string outcome the source decodes.
* The source notebook contains mechanical slips that the accompanying design
  notes call known source defects to fix, not preserve: element access
  written with call syntax (`self.action_circuits(self.state)` and similar),
  `self.grover_length` for the stored `self.grover_lengths` table,
  `for _ in length` for `for _ in range(length)`, and `.append[x]` for
  `.append(x)`, and circuits stored in numeric numpy arrays (modelled as
  lists).  Those repairs are applied, and each is noted at the definition it
  affects.  Semantic choices of the source (the `.any()` row saturation test,
  the uncapped stored grover length, the non-`elif` reward shaping, `round`
  rather than floor, the shared `optimal_steps` loop bound) are kept exactly
  as written; the `Q_value` / `Q_values` attribute confusion is modelled
  faithfully in `update_Q_values_asWritten`.
-/

namespace GroverQL

open Real

/-- Python `int(x)` applied to a float: truncation toward zero. -/
noncomputable def pytrunc (x : ℝ) : ℤ :=
  if 0 ≤ x then ⌊x⌋ else ⌈x⌉

/-- Python 3 `round(x)` on a float: round to nearest, ties to even. -/
noncomputable def pyround (x : ℝ) : ℤ :=
  if Int.fract x = 1 / 2 then (if Even ⌊x⌋ then ⌊x⌋ else ⌊x⌋ + 1) else round x

/-- Pointwise update of a two-index table: `t[i, j] = v`. -/
def upd2 {α : Type} (t : ℕ → ℕ → α) (i j : ℕ) (v : α) : ℕ → ℕ → α :=
  fun i' j' => if i' = i ∧ j' = j then v else t i' j'

/-- `np.max(Q[s])`: the maximum over the `A` entries of row `s`.
numpy errors on an empty row; the base value `Q s 0` only matters when
`A = 0`, which cannot occur for a well-formed action space. -/
noncomputable def rowMax (Q : ℕ → ℕ → ℝ) (s A : ℕ) : ℝ :=
  ((List.range A).map (Q s)).foldr max (Q s 0)

/-- `int(bits, 2)`: decode a big-endian bit string to a natural number. -/
def int_of_binary (bs : List Bool) : ℕ :=
  bs.foldl (fun acc b => 2 * acc + cond b 1 0) 0

/-- The zero-padded width-`n` big-endian binary label of `i`, as produced by
the `format` call in the source (for `i < 2 ^ n`). -/
def state_binary (n i : ℕ) : List Bool :=
  (List.range n).map (fun j => i.testBit (n - 1 - j))

/-- A Grover amplification operator instruction,
`GroverOperator(oracle=Statevector.from_label(label)).to_instruction()`,
identified by the binary label of the action basis state it amplifies. -/
structure GroverOp where
  target : List Bool

instance : Inhabited GroverOp := ⟨⟨[]⟩⟩

/-- A circuit gate: a Hadamard on one qubit, an appended Grover operator
instruction on a list of qubits, or the `measure_all` instruction. -/
inductive Gate
  | h (q : ℕ)
  | grover (op : GroverOp) (qubits : List ℕ)
  | measureAll

/-- A quantum circuit, modelled syntactically. -/
structure Circuit where
  qubits : ℕ
  name : String
  gates : List Gate

instance : Inhabited Circuit := ⟨⟨0, "", []⟩⟩

/-- The hyperparameter dictionary of the agent. -/
structure Hyperparameters where
  k : ℝ
  alpha : ℝ
  gamma : ℝ
  eps : ℝ
  max_epochs : ℕ
  max_steps : ℕ

/-- The external environment interface (spec section 6): observation and
action space sizes, the observation returned by `reset()`, and the
`(new_state, reward, done)` slots of `env.step(action)` as a function of the
current observation (the source keeps `self.state` in lock step with the
environment, so the internal environment state is the current
observation). -/
structure Env where
  observation_space_n : ℕ
  action_space_n : ℕ
  reset : ℕ
  step : ℕ → ℕ → ℕ × ℝ × Bool

/-- The `GroverQLearner` object: one field per attribute set in `__init__`.
The backend is the external executor: circuit and shot count to the single
measured bit-string outcome (`shots = 1` everywhere in the source). -/
structure GroverQLearner where
  env : Env
  state : ℕ
  action : ℕ
  state_dimension : ℕ
  action_dimension : ℕ
  action_qregister_size : ℕ
  max_grover_length : ℤ
  Q_values : ℕ → ℕ → ℝ
  grover_lengths : ℕ → ℕ → ℤ
  max_grover_length_reached : ℕ → ℕ → Bool
  grover_operators : List GroverOp
  action_circuits : List Circuit
  hyperparameters : Hyperparameters
  backend : Circuit → ℕ → List Bool

/-- `_init_grover_operators`: one Grover operator per action, built from the
width-`n` binary label of the action index.  (The source stores them in
`np.zeros(action_dimension)`; per the design notes this numeric container is
a category error, modelled as a list.) -/
def init_grover_operators (A n : ℕ) : List GroverOp :=
  (List.range A).map (fun i => ⟨state_binary n i⟩)

/-- `_init_action_circuits`: first loop builds one fresh `n`-qubit circuit per
state, second loop applies `circuit.h(list(range(n)))` — one Hadamard per
qubit — to every circuit.  (Numeric-container slip repaired to a list, as for
the operators.) -/
def init_action_circuits (S n : ℕ) : List Circuit :=
  let bare := (List.range S).map
    (fun s => Circuit.mk n ("action_s" ++ toString s) [])
  bare.map (fun c => { c with gates := c.gates ++ (List.range n).map Gate.h })

/-- The expression `np.pi / (4 * np.arcsin(1 / np.sqrt(2 ** n))) - 0.5`
whose rounding gives `max_grover_length`. -/
noncomputable def grover_arg (n : ℕ) : ℝ :=
  π / (4 * arcsin (1 / Real.sqrt ((2 : ℝ) ^ n))) - 0.5

/-- `self.max_grover_length = int(round(grover_arg n))`, as in `__init__`:
round to nearest (Python half-to-even), not floor. -/
noncomputable def max_grover_length_of (n : ℕ) : ℤ :=
  pyround (grover_arg n)

/-- Modelled from the spec: the formula the spec states for MaxIterations,
`M = floor(pi / (4 * arcsin(1 / sqrt(2^n))) - 0.5)`.  Kept separate from
`max_grover_length_of` (the formula of the source) for comparison. -/
noncomputable def max_iterations_spec (n : ℕ) : ℤ :=
  ⌊grover_arg n⌋

/-- The default hyperparameter dictionary assigned in `__init__`. -/
noncomputable def default_hyperparameters : Hyperparameters :=
  ⟨0.1, 0.05, 0.99, 0.01, 1000, 100⟩

/-- `__init__`: construct the agent from an environment and a backend.
`action_qregister_size = ceil(np.log2(action_dimension))` uses the real
base-2 logarithm, as the source does. -/
noncomputable def GroverQLearner.init (env : Env) (backend : Circuit → ℕ → List Bool) :
    GroverQLearner :=
  let S := env.observation_space_n
  let A := env.action_space_n
  let n : ℕ := (⌈Real.logb 2 (A : ℝ)⌉).toNat
  { env := env
    state := env.reset
    action := 0
    state_dimension := S
    action_dimension := A
    action_qregister_size := n
    max_grover_length := max_grover_length_of n
    Q_values := fun _ _ => 0
    grover_lengths := fun _ _ => 0
    max_grover_length_reached := fun _ _ => false
    grover_operators := init_grover_operators A n
    action_circuits := init_action_circuits S n
    hyperparameters := default_hyperparameters
    backend := backend }

/-- `set_hyperparameters(self, params): pass` — the body is `pass`. -/
def set_hyperparameters (ag : GroverQLearner) (_params : Hyperparameters) :
    GroverQLearner :=
  ag

/-- `_take_action`: copy the stored circuit of the current state, add
`measure_all` to the copy, execute it with `shots=1`, decode the single
outcome with `int(key, 2)`.  Returns the action, the (unchanged) agent, and
the list of execution requests issued to the backend. -/
def take_action (ag : GroverQLearner) : ℕ × GroverQLearner × List (Circuit × ℕ) :=
  let circuit := ag.action_circuits.getD ag.state default
  let circuit_to_measure := { circuit with gates := circuit.gates ++ [Gate.measureAll] }
  let outcome := ag.backend circuit_to_measure 1
  (int_of_binary outcome, ag, [(circuit_to_measure, 1)])

/-- `_get_grover_length`: `int(k * (reward + np.max(Q_values[new_state])))`;
no cap is applied here. -/
noncomputable def get_grover_length (ag : GroverQLearner) (reward : ℝ) (new_state : ℕ) : ℤ :=
  pytrunc (ag.hyperparameters.k * (reward + rowMax ag.Q_values new_state ag.action_dimension))

/-- `_run_grover_iterations`.  Call-syntax slips are repaired to element
access and `self.grover_length` to the stored `self.grover_lengths` table
(design notes, defect (c)); `for _ in length` is read as
`for _ in range(length)`.  The semantics is kept exactly: the saturation
test is `self.max_grover_length_reached[self.state].any()` — any action of
the whole row of the current state — while the flag that is set is the single
`(state, action)` entry. -/
noncomputable def run_grover_iterations (ag : GroverQLearner) : GroverQLearner :=
  let length : ℤ := min (ag.grover_lengths ag.state ag.action) ag.max_grover_length
  let circuit := ag.action_circuits.getD ag.state default
  let grover_operator := ag.grover_operators.getD ag.action default
  let row_any : Bool :=
    (List.range ag.action_dimension).any (fun a => ag.max_grover_length_reached ag.state a)
  let appended : List Gate :=
    List.replicate length.toNat
      (Gate.grover grover_operator (List.range ag.action_qregister_size))
  let circuit' :=
    if row_any then circuit
    else { circuit with gates := circuit.gates ++ appended }
  let reached' :=
    if length = ag.max_grover_length ∧ row_any = false then
      upd2 ag.max_grover_length_reached ag.state ag.action true
    else ag.max_grover_length_reached
  { ag with
    action_circuits := ag.action_circuits.set ag.state circuit'
    max_grover_length_reached := reached' }

/-- `_update_Q_values` with the `Q_value` / `Q_values` attribute confusion
repaired to the one canonical table `Q_values` (design notes, defect (b)).
This is the update the training loop embedding uses. -/
noncomputable def update_Q_values (ag : GroverQLearner) (reward : ℝ) (new_state : ℕ) :
    GroverQLearner :=
  let alpha := ag.hyperparameters.alpha
  let gamma := ag.hyperparameters.gamma
  { ag with
    Q_values := upd2 ag.Q_values ag.state ag.action
      (ag.Q_values ag.state ag.action +
        alpha * (reward + gamma * rowMax ag.Q_values new_state ag.action_dimension -
          ag.Q_values ag.state ag.action)) }

/-- `_update_Q_values` exactly as written: it reads the base term and the
subtracted term from `self.Q_values`, but takes the row maximum from
`self.Q_value` and assigns into `self.Q_value` — an attribute `__init__`
never creates.  `Q_value` is therefore an `Option`: `none` (the constructed
object) makes every call raise `AttributeError` before any write; if the
attribute did exist, the write would go to it and `Q_values` would be left
untouched.  Returns the pair (new `Q_values`, new `Q_value`). -/
noncomputable def update_Q_values_asWritten (Q_values : ℕ → ℕ → ℝ)
    (Q_value : Option (ℕ → ℕ → ℝ)) (s a : ℕ) (reward : ℝ) (new_state : ℕ)
    (alpha gamma : ℝ) (A : ℕ) :
    Except String ((ℕ → ℕ → ℝ) × Option (ℕ → ℕ → ℝ)) :=
  match Q_value with
  | none => Except.error ("AttributeError: GroverQLearner object has no attribute Q_value")
  | some qv => Except.ok
      (Q_values,
       some (upd2 qv s a
         (Q_values s a + alpha * (reward + gamma * rowMax qv new_state A - Q_values s a))))

/-- Result of the in-loop reward shaping. -/
structure ShapeResult where
  reward : ℝ
  done : Bool
  optimal_steps : ℕ
  target_reached : Bool

/-- The reward-shaping lines of `train`, verbatim: a first `if` for the no-op
move (`reward -= 10; done = True`), then an independent `if`/`elif`: the goal
test `new_state == state_dimension - 1` (with `reward += 99`,
`optimal_steps = step + 1`, `target_reached = True`) and otherwise
`if not done: reward -= 1`. -/
noncomputable def shape_reward (state_dimension state new_state : ℕ) (reward : ℝ)
    (done : Bool) (step optimal_steps : ℕ) (target_reached : Bool) : ShapeResult :=
  let reward1 := if new_state = state then reward - 10 else reward
  let done1 := if new_state = state then true else done
  if new_state = state_dimension - 1 then
    ⟨reward1 + 99, done1, step + 1, true⟩
  else if done1 = false then
    ⟨reward1 - 1, done1, optimal_steps, target_reached⟩
  else
    ⟨reward1, done1, optimal_steps, target_reached⟩

/-- The locals of `train` that the step loop reads and writes. -/
structure TrainLocals where
  optimal_steps : ℕ
  target_reached : Bool
  trajectory : List ℕ

/-- One iteration of the inner `for step in range(optimal_steps)` body:
take an action, step the environment, shape the reward, update the Q table,
record the (uncapped) grover length, run the grover iterations, append the
new state to the trajectory; the returned flag is `done` (`break`), and
`state` advances only when the episode does not `break`. -/
noncomputable def train_step (ag : GroverQLearner) (locs : TrainLocals) (step : ℕ) :
    GroverQLearner × TrainLocals × Bool :=
  let ta := take_action ag
  let ag1 := { ta.2.1 with action := ta.1 }
  let es := ag1.env.step ag1.state ag1.action
  let new_state := es.1
  let sr := shape_reward ag1.state_dimension ag1.state new_state es.2.1 es.2.2 step
    locs.optimal_steps locs.target_reached
  let ag2 := update_Q_values ag1 sr.reward new_state
  let ag3 := { ag2 with
    grover_lengths := upd2 ag2.grover_lengths ag2.state ag2.action
      (get_grover_length ag2 sr.reward new_state) }
  let ag4 := run_grover_iterations ag3
  let locs1 : TrainLocals :=
    ⟨sr.optimal_steps, sr.target_reached, locs.trajectory ++ [new_state]⟩
  if sr.done then (ag4, locs1, true)
  else ({ ag4 with state := new_state }, locs1, false)

/-- The inner step loop: `for step in range(fuel)` with `break` on `done`.
The fuel is the value of `optimal_steps` when the loop is entered (the Python
`range` is evaluated once), even though the body may reassign
`optimal_steps`. -/
noncomputable def run_steps (ag : GroverQLearner) (locs : TrainLocals) (step : ℕ) :
    ℕ → GroverQLearner × TrainLocals
  | 0 => (ag, locs)
  | fuel + 1 =>
    let r := train_step ag locs step
    if r.2.2 then (r.1, r.2.1)
    else run_steps r.1 r.2.1 (step + 1) fuel

/-- One epoch of `train`: reset the environment and the episode-local
`target_reached` and `trajectory`, then run the step loop with the current
`optimal_steps` as bound. -/
noncomputable def run_epoch (ag : GroverQLearner) (locs : TrainLocals) :
    GroverQLearner × TrainLocals :=
  let ag1 := { ag with state := ag.env.reset }
  let locs1 : TrainLocals := ⟨locs.optimal_steps, false, [ag1.state]⟩
  run_steps ag1 locs1 0 locs1.optimal_steps

/-- The three cross-epoch record lists of `train`. -/
structure TrainAcc where
  steps : List ℕ
  targets : List Bool
  trajs : List (List ℕ)

/-- The epoch loop of `train`: run an epoch, then append `optimal_steps`,
`target_reached` and the trajectory to the three record lists (`.append[x]`
slips read as `.append(x)`).  Returns the records, the final object state
and the final locals. -/
noncomputable def train_loop (ag : GroverQLearner) (locs : TrainLocals) (acc : TrainAcc) :
    ℕ → TrainAcc × GroverQLearner × TrainLocals
  | 0 => (acc, ag, locs)
  | epochs + 1 =>
    let r := run_epoch ag locs
    train_loop r.1 r.2
      ⟨acc.steps ++ [r.2.optimal_steps], acc.targets ++ [r.2.target_reached],
       acc.trajs ++ [r.2.trajectory]⟩ epochs

/-- `train`: initialize `optimal_steps` to `max_steps` and the record lists
to empty, run `max_epochs` epochs, and return the three record lists. -/
noncomputable def train (ag : GroverQLearner) : List ℕ × List Bool × List (List ℕ) :=
  let r := train_loop ag ⟨ag.hyperparameters.max_steps, false, []⟩ ⟨[], [], []⟩
    ag.hyperparameters.max_epochs
  (r.1.steps, r.1.targets, r.1.trajs)

end GroverQL

namespace GroverQL

open Real

/-- A deterministic backend stub: every execution request returns the
two-bit outcome 00, which decodes to action 0. -/
def backend0 : Circuit → ℕ → List Bool := fun _ _ => [false, false]

/-- A deterministic environment with 3 states and 4 actions: from state 0
every action jumps straight to the goal state 2 with reward 0 and
`done = true`. -/
noncomputable def env2 : Env :=
  ⟨3, 4, 0, fun s _ => if s = 0 then (2, 0, true) else (0, 0, false)⟩

/-- A deterministic environment with 3 states and 4 actions forming the
chain 0 → 1 → 2 → 0; only the step out of state 2 reports `done = true`;
no transition is a self-loop. -/
noncomputable def env6 : Env :=
  ⟨3, 4, 0, fun s _ =>
    if s = 0 then (1, 0, false) else if s = 1 then (2, 0, false) else (0, 0, true)⟩

/-- The constructed agent on `env2` (register width 2, all tables zero,
default hyperparameters). -/
noncomputable def agCE2 : GroverQLearner := GroverQLearner.init env2 backend0

/-- The constructed agent on `env6` with the run bounds `max_epochs = 2`
and `max_steps = 5`; all other fields are exactly the constructed ones. -/
noncomputable def agC6 : GroverQLearner :=
  { GroverQLearner.init env6 backend0 with
    hyperparameters := { default_hyperparameters with max_epochs := 2, max_steps := 5 } }

/-- A mid-training agent configuration: current pair `(state, action) =
(0, 1)`; the pair `(0, 0)` of the same state is already saturated while the
current pair `(0, 1)` is not; the stored grover length of the current pair
is 1 and `max_grover_length` is 1. -/
noncomputable def agC1 : GroverQLearner :=
  { env := env2, state := 0, action := 1, state_dimension := 3, action_dimension := 4,
    action_qregister_size := 2, max_grover_length := 1,
    Q_values := fun _ _ => 0,
    grover_lengths := fun s a => if s = 0 ∧ a = 1 then 1 else 0,
    max_grover_length_reached := fun s a => if s = 0 ∧ a = 0 then true else false,
    grover_operators := init_grover_operators 4 2,
    action_circuits := init_action_circuits 3 2,
    hyperparameters := default_hyperparameters,
    backend := backend0 }

theorem arcsin_one_half_pi : Real.arcsin (1 / 2) = π / 6 := by
  have h1 : -(π / 2) ≤ π / 6 := by nlinarith [Real.pi_pos]
  have h2 : π / 6 ≤ π / 2 := by nlinarith [Real.pi_pos]
  rw [← Real.sin_pi_div_six, Real.arcsin_sin h1 h2]

theorem grover_arg_two : grover_arg 2 = 1 := by
  have h4 : Real.sqrt ((2 : ℝ) ^ (2 : ℕ)) = 2 := Real.sqrt_sq (by norm_num)
  rw [grover_arg, h4, arcsin_one_half_pi]
  have h6 : (4 : ℝ) * (π / 6) = 2 * π / 3 := by ring
  have h7 : π / (2 * π / 3) = 3 / 2 := by
    rw [div_eq_iff (by positivity)]
    ring
  rw [h6, h7]
  norm_num

theorem pyround_one : pyround 1 = 1 := by
  rw [pyround, if_neg]
  · exact round_one
  · rw [Int.fract_one]; norm_num

theorem max_grover_length_of_two : max_grover_length_of 2 = 1 := by
  rw [max_grover_length_of, grover_arg_two, pyround_one]

theorem qreg_four : (⌈Real.logb 2 (4 : ℝ)⌉).toNat = 2 := by
  have h : Real.logb 2 (4 : ℝ) = 2 := by
    rw [show (4 : ℝ) = (2 : ℝ) ^ (2 : ℕ) by norm_num, Real.logb_pow,
      Real.logb_self_eq_one (by norm_num)]
    norm_num
  rw [h]
  norm_num
  decide

theorem grover_arg_three_bounds : 1.5 < grover_arg 3 ∧ grover_arg 3 < 2 := by
  have h8 : ((2 : ℝ) ^ (3 : ℕ)) = 8 := by norm_num
  have hs8pos : (0 : ℝ) < Real.sqrt 8 := Real.sqrt_pos.mpr (by norm_num)
  have hs8lt : Real.sqrt 8 < 2.8285 := by
    rw [Real.sqrt_lt' (by norm_num)]; norm_num
  have hs8gt : (2.8284 : ℝ) < Real.sqrt 8 := by
    rw [Real.lt_sqrt (by norm_num)]; norm_num
  set x : ℝ := 1 / Real.sqrt 8 with hxdef
  have hxpos : 0 < x := by positivity
  have hxlt : x < 0.35356 := by
    rw [hxdef, div_lt_iff₀ hs8pos]
    nlinarith
  have hxgt : (0.3535 : ℝ) < x := by
    rw [hxdef, lt_div_iff₀ hs8pos]
    nlinarith
  have hx1 : x ≤ 1 := by nlinarith
  have hsin : Real.sin (Real.arcsin x) = x := Real.sin_arcsin (by nlinarith) hx1
  have hπl := Real.pi_gt_d2
  have hπu := Real.pi_lt_d2
  have hπ0 := Real.pi_pos
  have hmem1 : π / 10 ∈ Set.Icc (-(π / 2)) (π / 2) := by
    constructor <;> nlinarith
  have hmem2 : Real.arcsin x ∈ Set.Icc (-(π / 2)) (π / 2) := Real.arcsin_mem_Icc x
  have hmem3 : π / 8 ∈ Set.Icc (-(π / 2)) (π / 2) := by
    constructor <;> nlinarith
  have hlow : π / 10 < Real.arcsin x := by
    have h1 : Real.sin (π / 10) < Real.sin (Real.arcsin x) := by
      rw [hsin]
      have h2 := Real.sin_lt (x := π / 10) (by positivity)
      nlinarith
    exact (Real.strictMonoOn_sin.lt_iff_lt hmem1 hmem2).mp h1
  have hhigh : Real.arcsin x < π / 8 := by
    have hp1 : π / 8 < 0.39375 := by linarith
    have hp2 : (0.3925 : ℝ) < π / 8 := by linarith
    have hcube : (π / 8) ^ 3 < 0.0611 := by
      have hc1 : (π / 8) ^ 3 < 0.39375 ^ 3 := by
        apply pow_lt_pow_left₀ hp1 (by positivity)
        norm_num
      nlinarith
    have hc := Real.sin_gt_sub_cube (x := π / 8) (by positivity) (by nlinarith)
    have h1 : Real.sin (Real.arcsin x) < Real.sin (π / 8) := by
      rw [hsin]
      nlinarith
    exact (Real.strictMonoOn_sin.lt_iff_lt hmem2 hmem3).mp h1
  have hapos : 0 < Real.arcsin x := by nlinarith
  have key : grover_arg 3 = π / (4 * Real.arcsin x) - 0.5 := by
    rw [grover_arg, h8]
  constructor
  · rw [key]
    have h2 : (2 : ℝ) < π / (4 * Real.arcsin x) := by
      rw [lt_div_iff₀ (by positivity)]
      nlinarith
    norm_num
    linarith
  · rw [key]
    have h2 : π / (4 * Real.arcsin x) < 5 / 2 := by
      rw [div_lt_iff₀ (by positivity)]
      nlinarith
    norm_num
    linarith

theorem floor_grover_arg_three : ⌊grover_arg 3⌋ = 1 := by
  have h := grover_arg_three_bounds
  rw [Int.floor_eq_iff]
  constructor
  · push_cast
    nlinarith [h.1]
  · push_cast
    nlinarith [h.2]

theorem pyround_grover_arg_three : pyround (grover_arg 3) = 2 := by
  have h := grover_arg_three_bounds
  have hfl := floor_grover_arg_three
  have hfr : Int.fract (grover_arg 3) ≠ 1 / 2 := by
    have he : Int.fract (grover_arg 3) = grover_arg 3 - 1 := by
      rw [← Int.self_sub_floor, hfl]
      norm_num
    rw [he]
    intro hc
    have h1 := h.1
    norm_num at h1 hc
    linarith
  rw [pyround, if_neg hfr, round_eq, Int.floor_eq_iff]
  constructor
  · push_cast
    nlinarith [h.1]
  · push_cast
    nlinarith [h.2]

theorem max_grover_length_of_three : max_grover_length_of 3 = 2 := by
  rw [max_grover_length_of, pyround_grover_arg_three]

theorem max_iterations_spec_three : max_iterations_spec 3 = 1 := by
  rw [max_iterations_spec, floor_grover_arg_three]

theorem agCE2_M : agCE2.max_grover_length = 1 := by
  simp only [agCE2, GroverQLearner.init, env2]
  norm_num
  rw [qreg_four, max_grover_length_of_two]

theorem run_steps_eq (ag : GroverQLearner) (locs : TrainLocals) (step fuel : ℕ) :
    run_steps ag locs step fuel =
      if fuel = 0 then (ag, locs)
      else
        if (train_step ag locs step).2.2 then
          ((train_step ag locs step).1, (train_step ag locs step).2.1)
        else run_steps (train_step ag locs step).1 (train_step ag locs step).2.1
          (step + 1) (fuel - 1) := by
  cases fuel with
  | zero => simp [run_steps]
  | succ n => simp [run_steps]

theorem train_step_grover_lengths (ag : GroverQLearner) (locs : TrainLocals) (step : ℕ) :
    (train_step ag locs step).1.grover_lengths =
      (let act := (take_action ag).1
       let es := ag.env.step ag.state act
       let sr := shape_reward ag.state_dimension ag.state es.1 es.2.1 es.2.2 step
         locs.optimal_steps locs.target_reached
       let agq := update_Q_values { ag with action := act } sr.reward es.1
       upd2 ag.grover_lengths ag.state act (get_grover_length agq sr.reward es.1)) := by
  simp only [train_step, take_action, update_Q_values, run_grover_iterations]
  split <;> rfl

theorem train_loop_lengths (epochs : ℕ) :
    ∀ (ag : GroverQLearner) (locs : TrainLocals) (acc : TrainAcc),
      (train_loop ag locs acc epochs).1.steps.length = acc.steps.length + epochs ∧
      (train_loop ag locs acc epochs).1.targets.length = acc.targets.length + epochs ∧
      (train_loop ag locs acc epochs).1.trajs.length = acc.trajs.length + epochs := by
  induction epochs with
  | zero => intro ag locs acc; simp [train_loop]
  | succ n ih =>
    intro ag locs acc
    simp only [train_loop]
    refine ⟨?_, ?_, ?_⟩
    · rw [(ih _ _ _).1]; simp; omega
    · rw [(ih _ _ _).2.1]; simp; omega
    · rw [(ih _ _ _).2.2]; simp; omega

theorem train_step_trajectory_length (ag : GroverQLearner) (locs : TrainLocals) (step : ℕ) :
    ((train_step ag locs step).2.1).trajectory.length = locs.trajectory.length + 1 := by
  simp only [train_step]
  split <;> simp

theorem run_steps_trajectory_le (fuel : ℕ) :
    ∀ (ag : GroverQLearner) (locs : TrainLocals) (step : ℕ),
      ((run_steps ag locs step fuel).2).trajectory.length ≤ locs.trajectory.length + fuel := by
  induction fuel with
  | zero => intro ag locs step; simp [run_steps]
  | succ n ih =>
    intro ag locs step
    simp only [run_steps]
    have h2 := train_step_trajectory_length ag locs step
    cases hb : (train_step ag locs step).2.2 with
    | false =>
      have h1 := ih (train_step ag locs step).1 (train_step ag locs step).2.1 (step + 1)
      simp only [hb, Bool.false_eq_true, if_false]
      omega
    | true =>
      simp only [hb, if_true]
      omega

end GroverQL

namespace GroverQL

open Real

/-- Claim C1.  The claim states that the saturation test and freeze in
`_run_grover_iterations` are per `(state, action)` pair.  The code instead
tests `max_grover_length_reached[state].any()` — the whole row of the
current state.  At `agC1` the current pair `(0, 1)` is not saturated and
`min(grover_lengths[0, 1], max_grover_length) = 1`, so per the claim one
operator copy should be appended and the `(0, 1)` flag set; because the
sibling pair `(0, 0)` is saturated, the code appends nothing and leaves the
`(0, 1)` flag false. -/
theorem claim_C1_per_state_any_freeze :
    agC1.max_grover_length_reached 0 1 = false ∧
    min (agC1.grover_lengths 0 1) agC1.max_grover_length = 1 ∧
    (run_grover_iterations agC1).action_circuits = agC1.action_circuits ∧
    (run_grover_iterations agC1).max_grover_length_reached 0 1 = false :=
  ⟨rfl, rfl, rfl, rfl⟩

/-- Claim C2, counterexample.  On the constructed agent `agCE2` (width-2
register, so `max_grover_length = 1`), the first epoch of training — exactly
the epoch `train` runs first, with `optimal_steps` initialized to
`max_steps` — stores `grover_lengths[0, 0] = 9`, the raw uncapped
`int(k * (reward + max Q[next]))` with the +99 goal reward, violating the
claimed invariant `grover_lengths[s, a] ≤ max_grover_length`. -/
theorem claim_C2_counterexample :
    (run_epoch agCE2 ⟨agCE2.hyperparameters.max_steps, false, []⟩).1.grover_lengths 0 0 = 9 ∧
    (run_epoch agCE2 ⟨agCE2.hyperparameters.max_steps, false, []⟩).1.max_grover_length = 1 ∧
    ¬ ((run_epoch agCE2 ⟨agCE2.hyperparameters.max_steps, false, []⟩).1.grover_lengths 0 0 ≤
        (run_epoch agCE2 ⟨agCE2.hyperparameters.max_steps, false, []⟩).1.max_grover_length) := by
  have h9 : (run_epoch agCE2 ⟨agCE2.hyperparameters.max_steps, false, []⟩).1.grover_lengths 0 0
      = 9 := by
    have h1 : (run_epoch agCE2 ⟨agCE2.hyperparameters.max_steps, false, []⟩).1.grover_lengths
        = (train_step { agCE2 with state := agCE2.env.reset }
            ⟨agCE2.hyperparameters.max_steps, false, [agCE2.env.reset]⟩ 0).1.grover_lengths := rfl
    rw [h1, train_step_grover_lengths]
    simp only [agCE2, GroverQLearner.init, env2, backend0, take_action, int_of_binary,
      shape_reward, update_Q_values, get_grover_length, upd2, rowMax, default_hyperparameters,
      List.foldl_cons, List.foldl_nil, List.foldr_cons, List.foldr_nil,
      show List.range 4 = [0, 1, 2, 3] from rfl, List.map_cons, List.map_nil,
      List.getD, cond_false, cond_true]
    norm_num [pytrunc]
  have hM : (run_epoch agCE2 ⟨agCE2.hyperparameters.max_steps, false, []⟩).1.max_grover_length
      = 1 := by
    have he : (run_epoch agCE2 ⟨agCE2.hyperparameters.max_steps, false, []⟩).1.max_grover_length
        = agCE2.max_grover_length := rfl
    rw [he, agCE2_M]
  refine ⟨h9, hM, ?_⟩
  rw [h9, hM]
  decide

/-- Claim C2, amended.  What a training step records in
`grover_lengths[state, action]` is the raw uncapped
`_get_grover_length` value `int(k * (shaped reward + max Q[new_state]))`
computed after the Q update — not the min with `max_grover_length` — and no
other table entry changes; the cap is applied only to the number of
operators appended. -/
theorem claim_C2_stored_length_is_raw (ag : GroverQLearner) (locs : TrainLocals) (step : ℕ) :
    (train_step ag locs step).1.grover_lengths =
      (let act := (take_action ag).1
       let es := ag.env.step ag.state act
       let sr := shape_reward ag.state_dimension ag.state es.1 es.2.1 es.2.2 step
         locs.optimal_steps locs.target_reached
       let agq := update_Q_values { ag with action := act } sr.reward es.1
       upd2 ag.grover_lengths ag.state act (get_grover_length agq sr.reward es.1)) :=
  train_step_grover_lengths ag locs step

/-- Claim C3, counterexample.  The claim states MaxIterations uses floor;
the source computes `int(round(...))`.  At register width `n = 3` the two
differ: the source value is 2 while the floor formula of the spec gives 1. -/
theorem claim_C3_counterexample :
    max_grover_length_of 3 ≠ max_iterations_spec 3 ∧
    max_grover_length_of 3 = 2 ∧ max_iterations_spec 3 = 1 := by
  refine ⟨?_, max_grover_length_of_three, max_iterations_spec_three⟩
  rw [max_grover_length_of_three, max_iterations_spec_three]
  decide

/-- Claim C3, amended.  MaxIterations is computed at construction from the
register width alone as `int(round(pi / (4 * arcsin(1 / sqrt(2^n))) - 0.5))`
— round to nearest, not floor; for an action space of size 4 (n = 2, as in
`agCE2`) it equals 1, agreeing with the value claimed for A = 4. -/
theorem claim_C3_max_iterations_round :
    agCE2.max_grover_length = max_grover_length_of 2 ∧ max_grover_length_of 2 = 1 := by
  constructor
  · simp only [agCE2, GroverQLearner.init, env2]
    norm_num
    rw [qreg_four]
  · exact max_grover_length_of_two

/-- Claim C4.  The claim states the update writes the single entry of the
one canonical value table.  As written, `_update_Q_values` assigns into
`self.Q_value`, an attribute `__init__` never creates (it creates
`Q_values`): on the constructed object every call raises `AttributeError`
(first conjunct, at pair (0, 0) with reward 0 and next state 0); and even
if a `Q_value` table existed, the write would go to it and the canonical
`Q_values` component would be returned unchanged (second conjunct). -/
theorem claim_C4_update_targets_missing_attribute :
    update_Q_values_asWritten (fun _ _ => 0) none 0 0 0 0 0.05 0.99 4 =
      Except.error ("AttributeError: GroverQLearner object has no attribute Q_value") ∧
    ∀ (Q qv : ℕ → ℕ → ℝ) (s a : ℕ) (r : ℝ) (ns : ℕ) (al ga : ℝ) (A : ℕ),
      update_Q_values_asWritten Q (some qv) s a r ns al ga A =
        Except.ok (Q, some (upd2 qv s a (Q s a + al * (r + ga * rowMax qv ns A - Q s a)))) :=
  ⟨rfl, fun _ _ _ _ _ _ _ _ _ => rfl⟩

/-- Claim C5, counterexample.  With S = 4, current state 3 and
`next_state = 3` (a no-op at the goal index), base reward 0 and `done`
false from the environment, the shaped reward is `0 - 10 + 99 = 89`, not
the claimed `base - 10`: the goal branch is an independent `if`, not an
`elif` of the no-op branch, so the +99 bonus also fires. -/
theorem claim_C5_counterexample :
    (shape_reward 4 3 3 0 false 0 100 false).reward = 89 ∧
    (shape_reward 4 3 3 0 false 0 100 false).done = true ∧
    (shape_reward 4 3 3 0 false 0 100 false).target_reached = true ∧
    (shape_reward 4 3 3 0 false 0 100 false).reward ≠ 0 - 10 :=
  ⟨by norm_num [shape_reward], by norm_num [shape_reward], by norm_num [shape_reward],
   by norm_num [shape_reward]⟩

/-- Claim C5, amended.  On a no-op move (`next_state = state`) the shaped
reward is `base - 10` and `done` is forced true, and the -1 step penalty is
never also applied; but when the unchanged state is the goal index `S - 1`
the +99 goal bonus is also applied (total `base - 10 + 99`), together with
the goal bookkeeping. -/
theorem claim_C5_noop_shaping (S s : ℕ) (r : ℝ) (d : Bool) (step os : ℕ) (t : Bool) :
    shape_reward S s s r d step os t =
      if s = S - 1 then ⟨r - 10 + 99, true, step + 1, true⟩
      else ⟨r - 10, true, os, t⟩ := by
  simp only [shape_reward, if_pos rfl]
  split <;> simp

/-- Claim C6, counterexample.  On `agC6` (`max_steps = 5`, `max_epochs = 2`,
chain environment 0 → 1 → 2 → 0 with `done` only out of state 2, no
self-loops): episode 1 reaches the goal at step 1, setting the shared local
`optimal_steps` to 2, and ends by `done` at step 2 with trajectory
[0, 1, 2, 0].  Episode 2 is then cut off after only 2 steps (trajectory
[0, 1, 2]) although no step set `done` — the step out of state 1 reports
`done = false` — and only 2 < 5 = `max_steps` steps had executed; with the
claimed per-episode bound `max_steps` the same episode would have run a
third step (trajectory [0, 1, 2, 0], fourth conjunct). -/
theorem claim_C6_counterexample :
    agC6.hyperparameters.max_steps = 5 ∧
    (train agC6).2.2 = [[0, 1, 2, 0], [0, 1, 2]] ∧
    (train agC6).1 = [2, 2] ∧
    (run_epoch (run_epoch agC6 ⟨5, false, []⟩).1 ⟨5, false, []⟩).2.trajectory = [0, 1, 2, 0] ∧
    (env6.step 1 0).2.2 = false :=
  ⟨rfl, rfl, rfl, rfl, rfl⟩

/-- Claim C6, amended.  The per-episode step limit is the value of the
shared local `optimal_steps` at episode entry — initially `max_steps`, but
permanently lowered to `step + 1` whenever the goal is reached, including
in earlier episodes: each episode executes at most `optimal_steps` steps
(trajectory length at most `optimal_steps + 1`), stopping earlier only when
a step sets `done`. -/
theorem claim_C6_step_bound (ag : GroverQLearner) (locs : TrainLocals) :
    ((run_epoch ag locs).2).trajectory.length ≤ 1 + locs.optimal_steps := by
  have h := run_steps_trajectory_le locs.optimal_steps
    { ag with state := ag.env.reset }
    ⟨locs.optimal_steps, false, [ag.env.reset]⟩ 0
  simpa [run_epoch] using h

/-- Claim C7.  `train` runs `max_epochs` episodes and returns three
sequences — steps per episode, goal-reached flags, trajectories — each with
exactly one entry per episode. -/
theorem claim_C7_train_lengths (ag : GroverQLearner) :
    (train ag).1.length = ag.hyperparameters.max_epochs ∧
    (train ag).2.1.length = ag.hyperparameters.max_epochs ∧
    (train ag).2.2.length = ag.hyperparameters.max_epochs := by
  have h := train_loop_lengths ag.hyperparameters.max_epochs ag
    ⟨ag.hyperparameters.max_steps, false, []⟩ ⟨[], [], []⟩
  simpa [train] using h

/-- Claim C8.  `_init_action_circuits` returns one circuit per state
(length S), and every circuit is a fresh n-qubit circuit whose gate list is
exactly one Hadamard on each of the n qubits — the equal-superposition
initialization. -/
theorem claim_C8_init_circuits (S n : ℕ) :
    init_action_circuits S n =
      (List.range S).map
        (fun s => Circuit.mk n ("action_s" ++ toString s) ((List.range n).map Gate.h)) ∧
    (init_action_circuits S n).length = S := by
  constructor
  · simp [init_action_circuits, List.map_map, Function.comp]
  · simp [init_action_circuits]

/-- Claim C9.  `_take_action` leaves the agent — in particular the stored
wavefunction circuit of every state — unchanged, and issues exactly one
backend execution, with `shots = 1`, of the copy of the current circuit
extended with `measure_all`; the returned action is the decoded outcome of
that one execution. -/
theorem claim_C9_take_action_frame (ag : GroverQLearner) :
    (take_action ag).2.1 = ag ∧
    (take_action ag).2.2 =
      [({ ag.action_circuits.getD ag.state default with
          gates := (ag.action_circuits.getD ag.state default).gates ++ [Gate.measureAll] }, 1)] ∧
    (take_action ag).1 = int_of_binary (ag.backend
      { ag.action_circuits.getD ag.state default with
        gates := (ag.action_circuits.getD ag.state default).gates ++ [Gate.measureAll] } 1) :=
  ⟨rfl, rfl, rfl⟩

/-- Claim C10.  `set_hyperparameters` has body `pass`: it returns the agent
unchanged for every argument, so the defaults fixed in the constructor
(k = 0.1, alpha = 0.05, gamma = 0.99, eps = 0.01, max_epochs = 1000,
max_steps = 100) are the only hyperparameters reachable through it. -/
theorem claim_C10_set_hyperparameters_noop :
    (∀ (ag : GroverQLearner) (p : Hyperparameters), set_hyperparameters ag p = ag) ∧
    ∀ (env : Env) (b : Circuit → ℕ → List Bool),
      (GroverQLearner.init env b).hyperparameters = ⟨0.1, 0.05, 0.99, 0.01, 1000, 100⟩ :=
  ⟨fun _ _ => rfl, fun _ _ => rfl⟩

end GroverQL
